import Mathlib

/-!
Shallow embedding of the availability engine of the voice-scheduling-lambda
repository (src/platforms/base_platform.py, src/platforms/google_calendar.py),
together with proofs about it.

Modelling conventions, used throughout:

* Wall-clock times within a day are minutes since midnight (`Nat`).  The Python
  code compares times both as naive `datetime` values restricted to a single
  day and as zero-padded `'HH:MM'` strings produced by `strftime('%H:%M')`;
  lexicographic order on zero-padded `'HH:MM'` strings coincides with numeric
  order on minutes-since-midnight, so `Nat` comparison is a faithful image of
  both.
* Calendar dates are `(year, month, day)` triples compared lexicographically,
  which matches both `datetime.date` comparison and comparison of zero-padded
  `'YYYY-MM-DD'` strings.
* Booked events are the `(start.strftime('%H:%M'), end.strftime('%H:%M'))`
  pairs the Python builds from the calendar response, i.e. pairs of minute
  values here.  All-day events are filtered out before that list is built
  (`if 'dateTime' in event['start']`), so they never appear in it.
* External calls (Google Calendar API) are represented either by counting them
  (`book_appointment`) or by oracle functions plus an explicit trace of the
  mutating calls that were issued (`reschedule`, `cancel`).
-/

/-- DEFAULT_START_HOUR from src/constants.py. -/
def DEFAULT_START_HOUR : Nat := 9

/-- DEFAULT_END_HOUR from src/constants.py. -/
def DEFAULT_END_HOUR : Nat := 17

/-- Business opening time in minutes since midnight (9:00). -/
def startOfBusiness : Nat := DEFAULT_START_HOUR * 60

/-- Business closing time in minutes since midnight (17:00). -/
def endOfBusiness : Nat := DEFAULT_END_HOUR * 60

/-- A candidate or booked slot: the `{'start': .., 'end': ..}` dicts built in
`get_available_times`.  `'end'` is a Lean keyword, so the field is `stop`. -/
structure Slot where
  start : Nat
  stop : Nat
deriving DecidableEq, Repr

/-- Calendar date, the `(year, month, day)` of a `datetime.date`. -/
structure Date where
  year : Nat
  month : Nat
  day : Nat
deriving DecidableEq, Repr

/-- Lexicographic comparison of dates, matching `datetime.date.__lt__`. -/
def dateLt (a b : Date) : Bool :=
  decide (a.year < b.year ∨ (a.year = b.year ∧
    (a.month < b.month ∨ (a.month = b.month ∧ a.day < b.day))))

/-- A naive datetime: a date plus minutes since midnight. -/
structure DateTime where
  date : Date
  minute : Nat
deriving DecidableEq, Repr

/-- Two-digit zero padding, as `strftime` produces for `%M`, `%d`. -/
def pad2 (n : Nat) : String :=
  if n < 10 then "0" ++ toString n else toString n

/-- The nested helper `format_time` of `_combine_events`
(src/platforms/base_platform.py, lines 129-146): 12-hour format, minutes
omitted when zero, no leading zero on the hour, upper-case AM/PM. -/
def format_time (t : Nat) : String :=
  let hour24 := t / 60
  let minutes := t % 60
  let hour := (hour24 + 11) % 12 + 1      -- `%I` with the leading zero stripped
  let ampm := if hour24 < 12 then "AM" else "PM"
  if minutes = 0 then toString hour ++ ampm
  else toString hour ++ ":" ++ pad2 minutes ++ ampm

/-- Order used by `sorted(slots, key=lambda x: x['start'])`. -/
def slotLE (a b : Slot) : Prop := a.start ≤ b.start

instance : DecidableRel slotLE := fun a b => Nat.decLe a.start b.start

instance : IsTotal Slot slotLE := ⟨fun a b => Nat.le_total a.start b.start⟩

instance : IsTrans Slot slotLE := ⟨fun _ _ _ h h' => Nat.le_trans h h'⟩

/-- Python's `sorted(slots, key=lambda x: x['start'])`: a stable sort by start
time.  `List.insertionSort` with `slotLE` is stable in the same way (an
element is inserted after the equal keys already placed, so the original
relative order of equal keys is preserved). -/
def sortSlots (slots : List Slot) : List Slot := List.insertionSort slotLE slots

/-- Loop body of the grouping pass of `_combine_events`
(src/platforms/base_platform.py, lines 148-159).  `cur` is `current_group`
held in reverse, so its head is `current_group[-1]`; a new slot joins the
group exactly when its start equals that last slot's end. -/
def groupAux (cur : List Slot) : List Slot → List (List Slot)
  | [] => [cur.reverse]
  | s :: rest =>
    if s.start = (cur.headD ⟨0, 0⟩).stop then groupAux (s :: cur) rest
    else cur.reverse :: groupAux [s] rest

/-- The grouping pass of `_combine_events`: split a (sorted) slot list into
the maximal runs of contiguous slots. -/
def groupSlots : List Slot → List (List Slot)
  | [] => []
  | s :: rest => groupAux [s] rest

/-- Formatting of one group (src/platforms/base_platform.py, lines 163-173):
a run of three or more slots becomes a single `"from .. to .."` range whose
right endpoint is the START of the last slot; a shorter run contributes one
start-time token per slot. -/
def renderGroup (g : List Slot) : List String :=
  if 3 ≤ g.length then
    ["from " ++ format_time (g.headD ⟨0, 0⟩).start ++ " to " ++
      format_time ((g.getLastD ⟨0, 0⟩).start)]
  else g.map (fun s => format_time s.start)

/-- `_combine_events` (src/platforms/base_platform.py, lines 106-179).  The
`date` and `duration` parameters of the Python function do not influence the
returned string (`date_obj` is computed and never used), so they are omitted
here. -/
def combine_events (slots : List Slot) : String :=
  if slots.isEmpty then "No available times found"
  else String.intercalate ", " ((groupSlots (sortSlots slots)).map renderGroup).flatten

/-- Gregorian leap-year test, as used by `datetime`. -/
def isLeapYear (y : Nat) : Bool := (y % 4 = 0 && y % 100 ≠ 0) || y % 400 = 0

/-- Number of days in a month of a given year. -/
def daysInMonth (y m : Nat) : Nat :=
  if m = 2 then (if isLeapYear y then 29 else 28)
  else if m = 4 ∨ m = 6 ∨ m = 9 ∨ m = 11 then 30
  else 31

/-- The day after a date (`date + timedelta(days=1)`). -/
def nextDay (d : Date) : Date :=
  if d.day < daysInMonth d.year d.month then ⟨d.year, d.month, d.day + 1⟩
  else if d.month < 12 then ⟨d.year, d.month + 1, 1⟩
  else ⟨d.year + 1, 1, 1⟩

/-- English month names, as produced by `strftime('%B')` (index 1..12). -/
def monthName (m : Nat) : String :=
  ["January", "February", "March", "April", "May", "June", "July",
   "August", "September", "October", "November", "December"].getD (m - 1) ""

/-- English weekday name of a Gregorian date via Zeller's congruence, as
produced by `strftime('%A')`. -/
def weekdayName (date : Date) : String :=
  let y := if date.month < 3 then date.year - 1 else date.year
  let m := if date.month < 3 then date.month + 12 else date.month
  let k := y % 100
  let j := y / 100
  let h := (date.day + (13 * (m + 1)) / 5 + k + k / 4 + j / 4 + 5 * j) % 7
  ["Saturday", "Sunday", "Monday", "Tuesday", "Wednesday", "Thursday",
   "Friday"].getD h ""

/-- The `date_obj.strftime('%A, %B %d')` rendering used for messages,
e.g. "Wednesday, March 20" (`%d` is zero-padded). -/
def formatDate (d : Date) : String :=
  weekdayName d ++ ", " ++ monthName d.month ++ " " ++ pad2 d.day

/-- The four-case overlap test of the conflict filter in
`BookingPlatform.get_available_times` (src/platforms/base_platform.py, lines
255-258): candidate starts inside booked, candidate ends inside booked,
candidate contains booked, booked contains candidate. -/
def overlaps4 (cs ce bs be : Nat) : Bool :=
  decide (bs ≤ cs ∧ cs < be) || decide (bs < ce ∧ ce ≤ be) ||
    decide (cs ≤ bs ∧ be ≤ ce) || decide (bs ≤ cs ∧ ce ≤ be)

/-- The two-case overlap test of the conflict filter in
`GoogleCalendarPlatform.get_available_times` (src/platforms/google_calendar.py,
lines 400-401): only "candidate starts inside booked" and "candidate ends
inside booked" are checked. -/
def overlaps2 (cs ce bs be : Nat) : Bool :=
  decide (bs ≤ cs ∧ cs < be) || decide (bs < ce ∧ ce ≤ be)

/-- The `while current_time < end_of_day` slot loop of
`BookingPlatform.get_available_times` (src/platforms/base_platform.py, lines
236-268), one recursive call per iteration.  `fuel` bounds the number of
iterations; the loop advances `cur` by 30 each pass and exits once
`cur ≥ endOfBusiness = 1020`, so any `fuel ≥ 1020` makes this identical to
the unbounded while loop.  `isToday` is `requested_date.date() == today`,
`nowMin` the minute-of-day of `now` (both `current_time` and `now` lie on the
requested day in that branch, so the datetime comparison `current_time <= now`
is the minute comparison `cur ≤ nowMin`). -/
def slotLoopF (fuel dur nowMin : Nat) (isToday : Bool)
    (booked : List (Nat × Nat)) (cur : Nat) : List Slot :=
  match fuel with
  | 0 => []
  | fuel + 1 =>
    if cur < endOfBusiness then
      -- Skip slots that are in the past for today
      if isToday && cur ≤ nowMin then
        slotLoopF fuel dur nowMin isToday booked (cur + 30)
      else
        let slotEnd := cur + dur
        if slotEnd ≤ endOfBusiness then
          if booked.all (fun b => !overlaps4 cur slotEnd b.1 b.2) then
            ⟨cur, slotEnd⟩ :: slotLoopF fuel dur nowMin isToday booked (cur + 30)
          else slotLoopF fuel dur nowMin isToday booked (cur + 30)
        else slotLoopF fuel dur nowMin isToday booked (cur + 30)
    else []

/-- The slot loop of the base `get_available_times`, started at
`current_time = requested_date.replace(hour=DEFAULT_START_HOUR, minute=0)`. -/
def slotLoop (dur nowMin : Nat) (isToday : Bool) (booked : List (Nat × Nat)) :
    List Slot :=
  slotLoopF endOfBusiness dur nowMin isToday booked startOfBusiness

/-- The `while current_time < end_of_day` slot loop of
`GoogleCalendarPlatform.get_available_times` (src/platforms/google_calendar.py,
lines 392-411): same stepping, but no past-date or past-time handling and only
the two-case overlap test. -/
def gslotLoopF (fuel dur : Nat) (booked : List (Nat × Nat)) (cur : Nat) :
    List Slot :=
  match fuel with
  | 0 => []
  | fuel + 1 =>
    if cur < endOfBusiness then
      let slotEnd := cur + dur
      if slotEnd ≤ endOfBusiness then
        if booked.all (fun b => !overlaps2 cur slotEnd b.1 b.2) then
          ⟨cur, slotEnd⟩ :: gslotLoopF fuel dur booked (cur + 30)
        else gslotLoopF fuel dur booked (cur + 30)
      else gslotLoopF fuel dur booked (cur + 30)
    else []

/-- Available slots computed by the google override of `get_available_times`. -/
def g_available_slots (dur : Nat) (booked : List (Nat × Nat)) : List Slot :=
  gslotLoopF endOfBusiness dur booked startOfBusiness

/-- Result of the base `get_available_times`.  The past-date branch
(src/platforms/base_platform.py, lines 230-234) returns a dict with only
`message` and `date` keys — no `availability_found` — so it is a distinct
constructor from the normal result of lines 287-291. -/
inductive GATResult where
  | past (message : String) (date : Date)
  | ok (message : String) (date : Date) (availabilityFound : Bool)
deriving DecidableEq, Repr

/-- The message carried by a `GATResult`. -/
def GATResult.message : GATResult → String
  | .past m _ => m
  | .ok m _ _ => m

/-- `BookingPlatform.get_available_times` (src/platforms/base_platform.py,
lines 181-291).  Inputs are the values the Python derives from its arguments:
`reqDate` is `requested_date.date()`, `booked` the `(start, end)` minute pairs
built from `booking_result['bookedEvents']['items']` (all-day events already
skipped), `now` the injected current moment.  Returns the result dict paired
with the `available_slots` list the function builds (empty when the past-date
branch returns before the slot loop runs). -/
def get_available_times (dur : Nat) (booked : List (Nat × Nat))
    (now : DateTime) (reqDate : Date) : GATResult × List Slot :=
  if dateLt reqDate now.date then
    (.past "Requested date is before today. Can you please provide a date on or after today?"
      reqDate, [])
  else
    let slots := slotLoop dur now.minute (reqDate = now.date) booked
    let combined := combine_events slots
    if slots.isEmpty then
      (.ok ("No available times found on " ++ formatDate reqDate) reqDate false, slots)
    else
      (.ok ("Available " ++ formatDate reqDate ++ ": " ++ combined) reqDate true, slots)

/-- `GoogleCalendarPlatform.get_available_times`
(src/platforms/google_calendar.py, lines 361-416).  It calls
`self._combine_events(available_slots, duration)`, so the integer duration
lands in the string `date` parameter of `_combine_events`; whenever
`available_slots` is non-empty, `datetime.strptime(date, '%Y-%m-%d')` then
raises `TypeError`, which is modelled as the `.error` case (the caller,
`book_appointment`, catches it in its `except` block).  With no slots,
`_combine_events` returns its fixed string before touching `date`. -/
def g_get_available_times (dur : Nat) (booked : List (Nat × Nat))
    (reqDate : Date) : Except String (String × Date) :=
  let slots := g_available_slots dur booked
  if slots.isEmpty then .ok ("No available times found", reqDate)
  else .error "strptime() argument 1 must be str, not int"

/-- Result of `book_appointment`, together with the number of Google Calendar
API calls executed (`events().list()` and `events().insert()`). -/
structure BookOut where
  success : Bool
  message : String
  calls : Nat
deriving DecidableEq, Repr

/-- `GoogleCalendarPlatform.book_appointment`
(src/platforms/google_calendar.py, lines 41-130).  `hour`/`minute` are the
parsed components of the requested timestamp, `events` the timed events of the
requested day as minute pairs (all-day events skipped by the `'dateTime' not
in ...` guard), `reqDate` the requested date.  The business-hours check at
line 66 tests only `DEFAULT_START_HOUR <= start_time.hour < DEFAULT_END_HOUR`
and runs before any API call; the conflict test at line 92 is
`start_time < event_end and end_time > event_start` against each listed
event. -/
def book_appointment (hour minute dur : Nat) (events : List (Nat × Nat))
    (reqDate : Date) : BookOut :=
  let startMin := hour * 60 + minute
  let endMin := startMin + dur
  if ¬ (DEFAULT_START_HOUR ≤ hour ∧ hour < DEFAULT_END_HOUR) then
    { success := false
      message := "Appointments must be between 9:00 and 17:00"
      calls := 0 }
  else if events.any (fun e => decide (startMin < e.2) && decide (endMin > e.1)) then
    match g_get_available_times dur events reqDate with
    | .ok _ => { success := false, message := "Time slot is already booked", calls := 1 }
    | .error e =>
      { success := false, message := "Error booking appointment: " ++ e, calls := 1 }
  else
    { success := true, message := "Appointment booked successfully", calls := 2 }

/-- The `{'success': .., 'message': ..}` result dict of the cancel and
reschedule operations. -/
structure OpResult where
  success : Bool
  message : String
deriving DecidableEq, Repr

/-- `BookingPlatform.reschedule_appointment` (src/platforms/base_platform.py,
lines 293-342).  `book` and `cancel` are the collaborator capabilities
(`book name timestamp phone`, `cancel timestamp phone`); the second component
of the result is the trace of `cancel_appointment` invocations
`(timestamp, phone_number)` in call order. -/
def reschedule_appointment (book : String → String → String → OpResult)
    (cancel : String → String → OpResult)
    (name phone oldTs newTs : String) : OpResult × List (String × String) :=
  let bookingResult := book (name ++ " (Rescheduled)") newTs phone
  if bookingResult.success then
    let cancelResult := cancel oldTs phone
    if !cancelResult.success then
      -- the compensating cancel of the new booking; its result is discarded
      ({ success := false
         message := "Failed to cancel old appointment: " ++ cancelResult.message },
       [(oldTs, phone), (newTs, phone)])
    else
      ({ success := true, message := "Appointment rescheduled successfully" },
       [(oldTs, phone)])
  else (bookingResult, [])

/-- `GoogleCalendarPlatform.reschedule_appointment`
(src/platforms/google_calendar.py, lines 418-467): same protocol, but the new
booking is made under the unmodified name. -/
def g_reschedule_appointment (book : String → String → String → OpResult)
    (cancel : String → String → OpResult)
    (name phone oldTs newTs : String) : OpResult × List (String × String) :=
  let bookingResult := book name newTs phone
  if !bookingResult.success then (bookingResult, [])
  else
    let cancelResult := cancel oldTs phone
    if !cancelResult.success then
      ({ success := false
         message := "Failed to cancel old appointment: " ++ cancelResult.message },
       [(oldTs, phone), (newTs, phone)])
    else
      ({ success := true, message := "Appointment rescheduled successfully" },
       [(oldTs, phone)])

/-- Whether `n` is an initial segment of `h` (character lists). -/
def leadMatch : List Char → List Char → Bool
  | [], _ => true
  | _ :: _, [] => false
  | a :: as, b :: bs => a == b && leadMatch as bs

/-- Auxiliary scan for Python's substring test `needle in hay`. -/
def subMatchAux (n : List Char) : List Char → Bool
  | [] => leadMatch n []
  | c :: rest => leadMatch n (c :: rest) || subMatchAux n rest

/-- Python's substring containment `needle in hay`. -/
def subMatch (needle hay : String) : Bool := subMatchAux needle.data hay.data

/-- A naive datetime at full `datetime` precision: a date plus microseconds
since midnight.  `cancel_appointment` compares whole datetimes
(`event_start == target_time`), where the target comes from
`strptime('%Y-%m-%dT%H:%M:%S')` and event starts keep the seconds and
microseconds delivered by the calendar, so equality must distinguish
sub-minute differences. -/
structure DateTimeMicro where
  date : Date
  micro : Nat
deriving DecidableEq, Repr

/-- The `start` field of a calendar event as `cancel_appointment` sees it:
either a timed start (the `'dateTime'` key is present and parses, via
`_strip_timezone`, to a local naive datetime) or a date-only all-day start
(no `'dateTime'` key). -/
inductive EventStart where
  | timed (dt : DateTimeMicro)
  | allDay
deriving DecidableEq, Repr

/-- A Google Calendar event as seen by `cancel_appointment`: its id, its
start field and its optional free-text description. -/
structure CalEvent where
  id : String
  start : EventStart
  description : Option String
deriving DecidableEq, Repr

/-- Whether an event is an all-day event (its `'start'` dict has no
`'dateTime'` key). -/
def isAllDay (e : CalEvent) : Bool :=
  match e.start with
  | .allDay => true
  | .timed _ => false

/-- The per-event match test of `cancel_appointment`
(src/platforms/google_calendar.py, lines 335-337): the local start datetime
equals the parsed timestamp exactly, the event has a description, and the
description contains `'Phone: <phone_number>'`.  An all-day event never
reaches this test in the source (the unguarded `event['start']['dateTime']`
access fails first), so it matches nothing. -/
def matchesCancel (target : DateTimeMicro) (phone : String) (e : CalEvent) : Bool :=
  match e.start with
  | .timed dt =>
    decide (dt = target) &&
      (match e.description with
       | some d => subMatch ("Phone: " ++ phone) d
       | none => false)
  | .allDay => false

/-- `GoogleCalendarPlatform.cancel_appointment`
(src/platforms/google_calendar.py, lines 301-359): scan the day's events in
order; delete the first one matching `matchesCancel` and return success.
Unlike `get_available_times` and `book_appointment`, this loop reads
`event['start']['dateTime']` without the `'dateTime' in ...` guard (line 332),
so the first all-day event raises `KeyError('dateTime')`, the `except` block
catches it, and the function returns
`'Error cancelling appointment: ' + str(e)` — with `str` of that `KeyError`
rendering as `'dateTime'` in quotes — having deleted nothing.  If the scan
runs out of events, it reports no match.  The second component is the list of
event ids passed to `events().delete()`. -/
def cancel_appointment (target : DateTimeMicro) (phone : String) :
    List CalEvent → OpResult × List String
  | [] => ({ success := false, message := "No matching appointment found" }, [])
  | e :: rest =>
    match e.start with
    | .allDay =>
      ({ success := false, message := "Error cancelling appointment: 'dateTime'" }, [])
    | .timed _ =>
      if matchesCancel target phone e then
        ({ success := true, message := "Appointment cancelled successfully" }, [e.id])
      else cancel_appointment target phone rest

/-- Modelled from the spec: the CONFLICT branch of the booking orchestrator
that builds the `otherAvailableTimes` message is not in src — the revision of
`book_appointment` producing it exists only through its unit tests
(src/unit_tests/platforms/test_google_calendar.py expects a result key
`'otherAvailableTimes'`, which no function under src/ sets).  Per spec §4.5
step 3: on CONFLICT, render the requested day via the availability pipeline;
if that day yields no free slots at all, probe forward exactly one additional
day and prefix "Requested date unavailable, but there is availability on: "
to the next day's rendered message.  `eventsOn` is the collaborator capability
that lists a day's booked intervals. -/
def conflict_other_times (dur : Nat) (eventsOn : Date → List (Nat × Nat))
    (now : DateTime) (day : Date) : String :=
  match (get_available_times dur (eventsOn day) now day).1 with
  | .ok msg _ true => msg
  | .ok _ _ false =>
    "Requested date unavailable, but there is availability on: " ++
      (get_available_times dur (eventsOn (nextDay day)) now (nextDay day)).1.message
  | .past msg _ => msg

/-- Contiguity relation between consecutive slots of a run: the second slot
starts exactly where the first one ends. -/
def slotAdj (a b : Slot) : Prop := b.start = a.stop

/-- Boundary relation between consecutive runs: the next run's first slot does
not start where this run's last slot ends (runs are maximal). -/
def runBoundary (g₁ g₂ : List Slot) : Prop :=
  (g₂.headD ⟨0, 0⟩).start ≠ ((g₁.getLastD ⟨0, 0⟩).stop)

/-- Strict version of the sort order, used to pin the sorted list down when
start times are distinct. -/
def slotLT (a b : Slot) : Prop := a.start < b.start

instance : IsAntisymm Slot slotLT :=
  ⟨fun _ _ h h' => absurd (Nat.lt_trans h h') (Nat.lt_irrefl _)⟩

/-- Collaborator oracle for exercising the reschedule protocol: every booking
attempt succeeds. -/
def bookW : String → String → String → OpResult :=
  fun _ _ _ => { success := true, message := "Appointment booked successfully" }

/-- Collaborator oracle for exercising the reschedule protocol: cancelling the
old appointment fails, any other cancel succeeds. -/
def cancelW : String → String → OpResult := fun ts _ =>
  if ts = "2024-03-20T10:00:00" then
    { success := false, message := "No matching appointment found" }
  else { success := true, message := "Appointment cancelled successfully" }

/-- Calendar oracle with March 20, 2024 fully booked (8:00-20:30) and every
other day free. -/
def fullyBookedMarch20 : Date → List (Nat × Nat) := fun d =>
  if d = ⟨2024, 3, 20⟩ then [(480, 1230)] else []

/-- Invariant of the base slot loop: every emitted slot starts at or after the
loop position, has length exactly `dur`, ends by closing time, starts strictly
after `now` when the requested day is today, and passes the four-case conflict
filter against every booked interval. -/
theorem slotLoopF_mem {fuel dur nowMin : Nat} {isToday : Bool}
    {booked : List (Nat × Nat)} {cur : Nat} {s : Slot}
    (h : s ∈ slotLoopF fuel dur nowMin isToday booked cur) :
    cur ≤ s.start ∧ s.stop = s.start + dur ∧ s.stop ≤ endOfBusiness ∧
      (isToday = true → nowMin < s.start) ∧
      booked.all (fun b => !overlaps4 s.start s.stop b.1 b.2) = true := by
  induction fuel generalizing cur with
  | zero => simp [slotLoopF] at h
  | succ n ih =>
    simp only [slotLoopF] at h
    split_ifs at h with hlt hskip hend hfree
    · -- past-for-today skip branch
      rcases ih h with ⟨h1, h2⟩
      exact ⟨by omega, h2⟩
    · -- slot appended
      rcases List.mem_cons.mp h with hs | hs
      · subst hs
        refine ⟨Nat.le_refl _, rfl, hend, ?_, hfree⟩
        intro htoday
        subst htoday
        simp only [Bool.true_and, decide_eq_true_eq] at hskip
        show nowMin < cur
        omega
      · rcases ih hs with ⟨h1, h2⟩
        exact ⟨by omega, h2⟩
    · rcases ih h with ⟨h1, h2⟩
      exact ⟨by omega, h2⟩
    · rcases ih h with ⟨h1, h2⟩
      exact ⟨by omega, h2⟩
    · simp at h

/-- Invariant of the google slot loop: every emitted slot starts at or after
the loop position, has length exactly `dur`, ends by closing time, and passes
the two-case conflict filter against every booked interval. -/
theorem gslotLoopF_mem {fuel dur : Nat} {booked : List (Nat × Nat)}
    {cur : Nat} {s : Slot}
    (h : s ∈ gslotLoopF fuel dur booked cur) :
    cur ≤ s.start ∧ s.stop = s.start + dur ∧ s.stop ≤ endOfBusiness ∧
      booked.all (fun b => !overlaps2 s.start s.stop b.1 b.2) = true := by
  induction fuel generalizing cur with
  | zero => simp [gslotLoopF] at h
  | succ n ih =>
    simp only [gslotLoopF] at h
    split_ifs at h with hlt hend hfree
    · rcases List.mem_cons.mp h with hs | hs
      · subst hs
        exact ⟨Nat.le_refl _, rfl, hend, hfree⟩
      · rcases ih hs with ⟨h1, h2⟩
        exact ⟨by omega, h2⟩
    · rcases ih h with ⟨h1, h2⟩
      exact ⟨by omega, h2⟩
    · rcases ih h with ⟨h1, h2⟩
      exact ⟨by omega, h2⟩
    · simp at h

/-- Concatenating the groups produced by the grouping pass restores the input
list (with the pending group prepended). -/
theorem groupAux_flatten :
    ∀ (rest : List Slot) (c : Slot) (cs : List Slot),
      (groupAux (c :: cs) rest).flatten = (c :: cs).reverse ++ rest := by
  intro rest
  induction rest with
  | nil => intro c cs; simp [groupAux]
  | cons s rest ih =>
    intro c cs
    simp only [groupAux, List.headD_cons]
    split_ifs with hadj
    · rw [ih s (c :: cs)]
      simp
    · simp only [List.flatten_cons]
      rw [ih s []]
      simp

/-- Every group produced by the grouping pass is nonempty. -/
theorem groupAux_ne_nil :
    ∀ (rest : List Slot) (c : Slot) (cs : List Slot),
      ∀ g ∈ groupAux (c :: cs) rest, g ≠ [] := by
  intro rest
  induction rest with
  | nil =>
    intro c cs g hg
    simp only [groupAux, List.mem_singleton] at hg
    subst hg
    simp
  | cons s rest ih =>
    intro c cs g hg
    simp only [groupAux, List.headD_cons] at hg
    split_ifs at hg with hadj
    · exact ih s (c :: cs) g hg
    · rcases List.mem_cons.mp hg with hg | hg
      · subst hg; simp
      · exact ih s [] g hg

/-- Every group produced by the grouping pass is a contiguous run, provided
the pending group (held in reverse) already is one. -/
theorem groupAux_chain :
    ∀ (rest : List Slot) (c : Slot) (cs : List Slot),
      List.Chain' slotAdj (c :: cs).reverse →
      ∀ g ∈ groupAux (c :: cs) rest, List.Chain' slotAdj g := by
  intro rest
  induction rest with
  | nil =>
    intro c cs hcur g hg
    simp only [groupAux, List.mem_singleton] at hg
    subst hg
    exact hcur
  | cons s rest ih =>
    intro c cs hcur g hg
    simp only [groupAux, List.headD_cons] at hg
    split_ifs at hg with hadj
    · refine ih s (c :: cs) ?_ g hg
      rw [List.reverse_cons]
      refine List.chain'_append.mpr ⟨hcur, List.chain'_singleton s, ?_⟩
      intro x hx y hy
      rw [List.getLast?_reverse, List.head?_cons] at hx
      simp only [List.head?_cons, Option.mem_def, Option.some.injEq] at hx hy
      subst hx; subst hy
      exact hadj
    · rcases List.mem_cons.mp hg with hg | hg
      · subst hg; exact hcur
      · exact ih s [] (List.chain'_singleton s) g hg

/-- The first group produced by the grouping pass extends the pending group. -/
theorem groupAux_head :
    ∀ (rest : List Slot) (c : Slot) (cs : List Slot),
      ∃ t gs, groupAux (c :: cs) rest = ((c :: cs).reverse ++ t) :: gs := by
  intro rest
  induction rest with
  | nil => intro c cs; exact ⟨[], [], by simp [groupAux]⟩
  | cons s rest ih =>
    intro c cs
    simp only [groupAux, List.headD_cons]
    split_ifs with hadj
    · rcases ih s (c :: cs) with ⟨t, gs, heq⟩
      rw [heq]
      exact ⟨s :: t, gs, by simp⟩
    · exact ⟨[], groupAux [s] rest, by simp⟩

/-- Consecutive groups produced by the grouping pass are separated by a
non-contiguity boundary: the runs are maximal. -/
theorem groupAux_boundary :
    ∀ (rest : List Slot) (c : Slot) (cs : List Slot),
      List.Chain' runBoundary (groupAux (c :: cs) rest) := by
  intro rest
  induction rest with
  | nil => intro c cs; simp [groupAux]
  | cons s rest ih =>
    intro c cs
    simp only [groupAux, List.headD_cons]
    split_ifs with hadj
    · exact ih s (c :: cs)
    · refine List.chain'_cons'.mpr ⟨?_, ih s []⟩
      intro g hg
      rcases groupAux_head rest s [] with ⟨t, gs, heq⟩
      rw [heq, List.head?_cons] at hg
      simp only [Option.mem_def, Option.some.injEq] at hg
      subst hg
      simp only [runBoundary, List.reverse_singleton, List.singleton_append,
        List.headD_cons, List.getLastD_eq_getLast?, List.getLast?_reverse,
        List.head?_cons, Option.getD_some]
      exact hadj

/-- When no two slots share a start time, the stable sort by start time is
determined by the multiset of slots alone: permuted inputs sort identically. -/
theorem sortSlots_eq_of_perm {l₁ l₂ : List Slot} (h : l₁.Perm l₂)
    (hnd : (l₁.map Slot.start).Nodup) : sortSlots l₁ = sortSlots l₂ := by
  have hp₁ : (sortSlots l₁).Perm l₁ := List.perm_insertionSort _ _
  have hp₂ : (sortSlots l₂).Perm l₂ := List.perm_insertionSort _ _
  have hperm : (sortSlots l₁).Perm (sortSlots l₂) :=
    hp₁.trans (h.trans hp₂.symm)
  have hne₁ : (sortSlots l₁).Pairwise (fun a b => a.start ≠ b.start) :=
    (hp₁.pairwise_iff (fun hab => hab.symm)).mpr (List.pairwise_map.mp hnd)
  have hne₂ : (sortSlots l₂).Pairwise (fun a b => a.start ≠ b.start) :=
    (hperm.pairwise_iff (fun hab => hab.symm)).mp hne₁
  have hlt₁ : (sortSlots l₁).Sorted slotLT :=
    ((List.sorted_insertionSort slotLE l₁).and hne₁).imp
      (fun hab => Nat.lt_of_le_of_ne hab.1 hab.2)
  have hlt₂ : (sortSlots l₂).Sorted slotLT :=
    ((List.sorted_insertionSort slotLE l₂).and hne₂).imp
      (fun hab => Nat.lt_of_le_of_ne hab.1 hab.2)
  exact List.eq_of_perm_of_sorted hperm hlt₁ hlt₂

/-- C1: the claim states that the conflict filtering inside
`get_available_times` keeps a candidate slot iff it overlaps no booked
interval under the symmetric four-case test.  The google override
(`GoogleCalendarPlatform.get_available_times`) checks only the first two
cases, so at duration 30 with a booked interval 09:10-09:20 it keeps the
candidate 09:00-09:30 even though that candidate contains the booked interval
(four-case overlap); the base implementation excludes the same candidate. -/
theorem claim_C1_google_filter_keeps_overlapping_slot :
    (⟨540, 570⟩ : Slot) ∈ g_available_slots 30 [(550, 560)] ∧
    overlaps4 540 570 550 560 = true ∧
    (⟨540, 570⟩ : Slot) ∉ slotLoop 30 0 false [(550, 560)] := by
  refine ⟨?_, ?_, ?_⟩ <;> decide

/-- C2: in both reschedule implementations, whenever booking the new
timestamp succeeds and cancelling the old appointment fails, the compensating
cancel is invoked with the new timestamp and the same phone number, and the
returned result has `success = false` with a message naming the cancellation
failure. -/
theorem claim_C2_compensating_cancel :
    ∀ (book : String → String → String → OpResult)
      (cancel : String → String → OpResult) (name phone oldTs newTs : String),
      ((book (name ++ " (Rescheduled)") newTs phone).success = true →
        (cancel oldTs phone).success = false →
        (reschedule_appointment book cancel name phone oldTs newTs).1.success = false ∧
        (reschedule_appointment book cancel name phone oldTs newTs).1.message =
          "Failed to cancel old appointment: " ++ (cancel oldTs phone).message ∧
        (newTs, phone) ∈ (reschedule_appointment book cancel name phone oldTs newTs).2) ∧
      ((book name newTs phone).success = true →
        (cancel oldTs phone).success = false →
        (g_reschedule_appointment book cancel name phone oldTs newTs).1.success = false ∧
        (g_reschedule_appointment book cancel name phone oldTs newTs).1.message =
          "Failed to cancel old appointment: " ++ (cancel oldTs phone).message ∧
        (newTs, phone) ∈ (g_reschedule_appointment book cancel name phone oldTs newTs).2) := by
  intro book cancel name phone oldTs newTs
  constructor
  · intro hb hc
    simp [reschedule_appointment, hb, hc]
  · intro hb hc
    simp [g_reschedule_appointment, hb, hc]

/-- Witness for C2 at a concrete input: booking always succeeds and the
cancel of the old timestamp fails, so the reschedule fails, reports the
cancellation failure, and the trace shows the compensating cancel of the new
timestamp. -/
theorem claim_C2_witness :
    (reschedule_appointment bookW cancelW "John" "+1234567890"
        "2024-03-20T10:00:00" "2024-03-21T10:00:00").1.success = false ∧
    (reschedule_appointment bookW cancelW "John" "+1234567890"
        "2024-03-20T10:00:00" "2024-03-21T10:00:00").1.message =
      "Failed to cancel old appointment: " ++
        (cancelW "2024-03-20T10:00:00" "+1234567890").message ∧
    ("2024-03-21T10:00:00", "+1234567890") ∈
      (reschedule_appointment bookW cancelW "John" "+1234567890"
        "2024-03-20T10:00:00" "2024-03-21T10:00:00").2 :=
  (claim_C2_compensating_cancel bookW cancelW "John" "+1234567890"
    "2024-03-20T10:00:00" "2024-03-21T10:00:00").1 (by decide) (by decide)

/-- Counterexample to C3 as stated: for the request 16:45 with duration 30,
the computed end 17:15 crosses the business end hour, yet
`book_appointment` does not reject — it proceeds to the calendar (two API
calls) and books successfully on a free day. -/
theorem claim_C3_counterexample :
    endOfBusiness < 16 * 60 + 45 + 30 ∧
    book_appointment 16 45 30 [] ⟨2024, 3, 20⟩ =
      { success := true, message := "Appointment booked successfully", calls := 2 } := by
  refine ⟨?_, ?_⟩ <;> decide

/-- C3 (amended): `book_appointment` returns the terminal outside-hours
rejection with zero external calendar calls exactly when the start hour is
below the business start hour or at/after the business end hour; when the
start hour is inside the window the external fetch is always made — the
end-crossing condition is not part of the validation. -/
theorem claim_C3_start_hour_validation :
    ∀ (hour minute dur : Nat) (events : List (Nat × Nat)) (d : Date),
      ((hour < DEFAULT_START_HOUR ∨ DEFAULT_END_HOUR ≤ hour) →
        book_appointment hour minute dur events d =
          { success := false
            message := "Appointments must be between 9:00 and 17:00"
            calls := 0 }) ∧
      (DEFAULT_START_HOUR ≤ hour → hour < DEFAULT_END_HOUR →
        1 ≤ (book_appointment hour minute dur events d).calls) := by
  intro hour minute dur events d
  constructor
  · intro h
    have hcond : ¬(DEFAULT_START_HOUR ≤ hour ∧ hour < DEFAULT_END_HOUR) := by
      simp only [DEFAULT_START_HOUR, DEFAULT_END_HOUR] at h ⊢
      omega
    unfold book_appointment
    rw [if_pos hcond]
  · intro h1 h2
    unfold book_appointment
    rw [if_neg (not_not_intro ⟨h1, h2⟩)]
    split
    · split <;> simp
    · simp

/-- Witness for C3 (amended) at a concrete input: a 7:00 request is rejected
without any external call, and a 10:00 request reaches the calendar. -/
theorem claim_C3_witness :
    book_appointment 7 0 30 [] ⟨2024, 3, 20⟩ =
      { success := false
        message := "Appointments must be between 9:00 and 17:00"
        calls := 0 } ∧
    1 ≤ (book_appointment 10 0 30 [] ⟨2024, 3, 20⟩).calls :=
  ⟨(claim_C3_start_hour_validation 7 0 30 [] ⟨2024, 3, 20⟩).1 (by decide),
   (claim_C3_start_hour_validation 10 0 30 [] ⟨2024, 3, 20⟩).2 (by decide) (by decide)⟩

/-- C4: when the requested day's availability result reports no free slots, the
spec-modelled conflict branch of the booking orchestrator returns exactly the
prefix "Requested date unavailable, but there is availability on: " followed by
the next day's rendered availability message, and the result depends on the
calendar only through the requested day and the single following day (exactly
one additional day is probed). -/
theorem claim_C4_one_day_probe :
    ∀ (dur : Nat) (eventsOn : Date → List (Nat × Nat)) (now : DateTime)
      (day : Date) (m : String) (d : Date),
      (get_available_times dur (eventsOn day) now day).1 = .ok m d false →
      conflict_other_times dur eventsOn now day =
        "Requested date unavailable, but there is availability on: " ++
          (get_available_times dur (eventsOn (nextDay day)) now (nextDay day)).1.message ∧
      ∀ eventsOn' : Date → List (Nat × Nat),
        eventsOn' day = eventsOn day →
        eventsOn' (nextDay day) = eventsOn (nextDay day) →
        conflict_other_times dur eventsOn' now day =
          conflict_other_times dur eventsOn now day := by
  intro dur eventsOn now day m d h
  constructor
  · unfold conflict_other_times
    rw [h]
  · intro ev h1 h2
    unfold conflict_other_times
    rw [h1, h2]

/-- Witness for C4 at a concrete input: March 20, 2024 is fully booked, the
next day is free, and the probed message carries the required prefix. -/
theorem claim_C4_witness :
    conflict_other_times 30 fullyBookedMarch20 ⟨⟨2024, 3, 19⟩, 600⟩ ⟨2024, 3, 20⟩ =
      "Requested date unavailable, but there is availability on: " ++
        (get_available_times 30 (fullyBookedMarch20 (nextDay ⟨2024, 3, 20⟩))
          ⟨⟨2024, 3, 19⟩, 600⟩ (nextDay ⟨2024, 3, 20⟩)).1.message :=
  (claim_C4_one_day_probe 30 fullyBookedMarch20 ⟨⟨2024, 3, 19⟩, 600⟩ ⟨2024, 3, 20⟩
    "No available times found on Wednesday, March 20" ⟨2024, 3, 20⟩ (by decide)).1

/-- C5: when the requested date is strictly before today, the base
`get_available_times` returns the day-level past-date failure before the slot
loop runs — zero slots are generated and the result is not of the normal
(`availability_found`-carrying) shape. -/
theorem claim_C5_past_date_short_circuit :
    ∀ (dur : Nat) (booked : List (Nat × Nat)) (now : DateTime) (reqDate : Date),
      dateLt reqDate now.date = true →
      (get_available_times dur booked now reqDate).1 =
        .past "Requested date is before today. Can you please provide a date on or after today?"
          reqDate ∧
      (get_available_times dur booked now reqDate).2 = [] ∧
      ∀ m d f, (get_available_times dur booked now reqDate).1 ≠ .ok m d f := by
  intro dur booked now reqDate h
  refine ⟨?_, ?_, ?_⟩ <;> simp [get_available_times, h]

/-- Witness for C5 at a concrete input: March 19, 2024 requested while "now"
is March 20, 2024. -/
theorem claim_C5_witness :
    (get_available_times 30 [] ⟨⟨2024, 3, 20⟩, 600⟩ ⟨2024, 3, 19⟩).1 =
      .past "Requested date is before today. Can you please provide a date on or after today?"
        ⟨2024, 3, 19⟩ ∧
    (get_available_times 30 [] ⟨⟨2024, 3, 20⟩, 600⟩ ⟨2024, 3, 19⟩).2 = [] ∧
    ∀ m d f, (get_available_times 30 [] ⟨⟨2024, 3, 20⟩, 600⟩ ⟨2024, 3, 19⟩).1 ≠ .ok m d f :=
  claim_C5_past_date_short_circuit 30 [] ⟨⟨2024, 3, 20⟩, 600⟩ ⟨2024, 3, 19⟩ (by decide)

/-- C6: the claim states that on a same-day request no returned slot starts at
or before "now".  The google override's slot loop never consults "now": with
"now" at 12:00 (minute 720) on the requested day it still returns the
9:00-9:30 slot, whose start 540 is at or before 720, while the base loop with
the same "now" excludes that slot. -/
theorem claim_C6_google_ignores_now :
    (⟨540, 570⟩ : Slot) ∈ g_available_slots 30 [] ∧
    540 ≤ 720 ∧
    (⟨540, 570⟩ : Slot) ∉ slotLoop 30 720 true [] := by
  refine ⟨?_, ?_, ?_⟩ <;> decide

/-- C7: both slot generators return only slots lying inside the business
window — every returned slot starts at or after opening, has exactly the
requested duration, and ends at or before closing (a slot that would cross
closing time is dropped, never truncated). -/
theorem claim_C7_slot_window_bounds :
    ∀ (dur nowMin : Nat) (isToday : Bool) (booked : List (Nat × Nat)) (s : Slot),
      (s ∈ slotLoop dur nowMin isToday booked →
        startOfBusiness ≤ s.start ∧ s.stop = s.start + dur ∧ s.stop ≤ endOfBusiness) ∧
      (s ∈ g_available_slots dur booked →
        startOfBusiness ≤ s.start ∧ s.stop = s.start + dur ∧ s.stop ≤ endOfBusiness) := by
  intro dur nowMin isToday booked s
  constructor
  · intro h
    rcases slotLoopF_mem h with ⟨h1, h2, h3, _⟩
    exact ⟨h1, h2, h3⟩
  · intro h
    rcases gslotLoopF_mem h with ⟨h1, h2, h3, _⟩
    exact ⟨h1, h2, h3⟩

/-- Witness for C7 at a concrete input: the 9:00-9:30 slot returned on a free
day satisfies the window bounds. -/
theorem claim_C7_witness :
    startOfBusiness ≤ (⟨540, 570⟩ : Slot).start ∧
    (⟨540, 570⟩ : Slot).stop = (⟨540, 570⟩ : Slot).start + 30 ∧
    (⟨540, 570⟩ : Slot).stop ≤ endOfBusiness :=
  (claim_C7_slot_window_bounds 30 0 false [] ⟨540, 570⟩).1 (by decide)

/-- C8: the renderer groups the sorted slots into maximal contiguous runs —
the groups concatenate back to the sorted list, every group is a nonempty
contiguous chain, and adjacent groups are separated by a discontinuity; a run
of at least three slots renders as a single "from <first start> to <last
START>" range and a shorter run as one start-time token per slot; a fully
free 9:00-17:00 day at 30-minute duration renders exactly as
"from 9AM to 4:30PM". -/
theorem claim_C8_grouping_and_rendering :
    (∀ slots : List Slot,
      (groupSlots (sortSlots slots)).flatten = sortSlots slots ∧
      (∀ g ∈ groupSlots (sortSlots slots), g ≠ [] ∧ List.Chain' slotAdj g) ∧
      List.Chain' runBoundary (groupSlots (sortSlots slots)) ∧
      (∀ g ∈ groupSlots (sortSlots slots),
        renderGroup g =
          if 3 ≤ g.length then
            ["from " ++ format_time (g.headD ⟨0, 0⟩).start ++ " to " ++
              format_time ((g.getLastD ⟨0, 0⟩).start)]
          else g.map (fun s => format_time s.start))) ∧
    combine_events (slotLoop 30 0 false []) = "from 9AM to 4:30PM" ∧
    combine_events [⟨540, 570⟩, ⟨600, 630⟩] = "9AM, 10AM" := by
  refine ⟨?_, by decide, by decide⟩
  intro slots
  cases h : sortSlots slots with
  | nil => simp [h, groupSlots]
  | cons s rest =>
    refine ⟨?_, ?_, ?_, ?_⟩
    · rw [groupSlots, groupAux_flatten rest s []]
      simp
    · intro g hg
      rw [groupSlots] at hg
      exact ⟨groupAux_ne_nil rest s [] g hg,
        groupAux_chain rest s [] (List.chain'_singleton s) g hg⟩
    · rw [groupSlots]
      exact groupAux_boundary rest s []
    · intro g _
      rfl

/-- Witness for C8 at concrete inputs: the grouping facts instantiated at the
two-run list 9:00-10:00 and 10:30-11:00, together with the rendering of the
fully free day (re-proved through the theorem's closed conjunct). -/
theorem claim_C8_witness :
    (groupSlots (sortSlots [⟨540, 570⟩, ⟨570, 600⟩, ⟨630, 660⟩])).flatten =
      sortSlots [⟨540, 570⟩, ⟨570, 600⟩, ⟨630, 660⟩] ∧
    List.Chain' runBoundary (groupSlots (sortSlots [⟨540, 570⟩, ⟨570, 600⟩, ⟨630, 660⟩])) ∧
    combine_events (slotLoop 30 0 false []) = "from 9AM to 4:30PM" :=
  ⟨(claim_C8_grouping_and_rendering.1 [⟨540, 570⟩, ⟨570, 600⟩, ⟨630, 660⟩]).1,
   (claim_C8_grouping_and_rendering.1 [⟨540, 570⟩, ⟨570, 600⟩, ⟨630, 660⟩]).2.2.1,
   claim_C8_grouping_and_rendering.2.1⟩

/-- Counterexample to C9 as stated: two permutations of the same four slots
(two of which share the start time 9:00 with different ends) render
differently, because Python's stable sort preserves the input order of equal
keys and the grouping then chains through different slots. -/
theorem claim_C9_counterexample :
    ([⟨540, 600⟩, ⟨540, 570⟩, ⟨570, 600⟩, ⟨600, 630⟩] : List Slot).Perm
      [⟨540, 570⟩, ⟨540, 600⟩, ⟨570, 600⟩, ⟨600, 630⟩] ∧
    combine_events [⟨540, 600⟩, ⟨540, 570⟩, ⟨570, 600⟩, ⟨600, 630⟩] ≠
      combine_events [⟨540, 570⟩, ⟨540, 600⟩, ⟨570, 600⟩, ⟨600, 630⟩] := by
  refine ⟨?_, ?_⟩ <;> decide

/-- C9 (amended): the rendered availability text is invariant under
permutation of the input slot list whenever no two slots share a start time
(then the stable sort is determined by the multiset of slots alone; with
duplicate start times the stable sort, and hence the rendering, can depend on
the input order). -/
theorem claim_C9_perm_invariant :
    ∀ (l₁ l₂ : List Slot), l₁.Perm l₂ → (l₁.map Slot.start).Nodup →
      combine_events l₁ = combine_events l₂ := by
  intro l₁ l₂ h hnd
  unfold combine_events
  rw [List.Perm.isEmpty_eq h, sortSlots_eq_of_perm h hnd]

/-- Witness for C9 (amended) at a concrete input: two orderings of the same
two slots with distinct start times render identically. -/
theorem claim_C9_witness :
    combine_events [⟨600, 630⟩, ⟨540, 570⟩] = combine_events [⟨540, 570⟩, ⟨600, 630⟩] :=
  claim_C9_perm_invariant [⟨600, 630⟩, ⟨540, 570⟩] [⟨540, 570⟩, ⟨600, 630⟩]
    (by decide) (by decide)

/-- Counterexample to C10 as stated: with an all-day event first in the day's
list and a fully matching timed appointment (10:00:00, phone in description)
right after it, the claim requires that matching event to be deleted with
success — but `cancel_appointment` hits the unguarded
`event['start']['dateTime']` access on the all-day event, aborts through its
`except` block with the KeyError text, and deletes nothing; the no-match
message of the claim does not appear either. -/
theorem claim_C10_counterexample :
    matchesCancel ⟨⟨2024, 3, 20⟩, 36000000000⟩ "+1234567890"
      ⟨"e1", .timed ⟨⟨2024, 3, 20⟩, 36000000000⟩, some "Phone: +1234567890"⟩ = true ∧
    (cancel_appointment ⟨⟨2024, 3, 20⟩, 36000000000⟩ "+1234567890"
      [⟨"e0", .allDay, none⟩,
       ⟨"e1", .timed ⟨⟨2024, 3, 20⟩, 36000000000⟩, some "Phone: +1234567890"⟩]).1 =
      { success := false, message := "Error cancelling appointment: 'dateTime'" } ∧
    (cancel_appointment ⟨⟨2024, 3, 20⟩, 36000000000⟩ "+1234567890"
      [⟨"e0", .allDay, none⟩,
       ⟨"e1", .timed ⟨⟨2024, 3, 20⟩, 36000000000⟩, some "Phone: +1234567890"⟩]).2 = [] := by
  refine ⟨?_, ?_, ?_⟩ <;> decide

/-- C10 (amended): `cancel_appointment` deletes at most one event per
invocation.  Scanning the day's events in order, it stops at the first event
that is all-day or that matches (start datetime exactly equal to the parsed
timestamp and description containing "Phone: <phone_number>"): an all-day
event aborts the scan through the `except` path with
`success = false`, message "Error cancelling appointment: 'dateTime'" and no
deletion; a matching event is deleted with success; if the scan finds
neither, nothing is deleted and the result is `success = false` with
"No matching appointment found". -/
theorem claim_C10_cancel_at_most_one :
    ∀ (target : DateTimeMicro) (phone : String) (events : List CalEvent),
      (cancel_appointment target phone events).2.length ≤ 1 ∧
      (match events.find? (fun e => isAllDay e || matchesCancel target phone e) with
       | some e =>
         if isAllDay e then
           (cancel_appointment target phone events).1 =
             { success := false, message := "Error cancelling appointment: 'dateTime'" } ∧
           (cancel_appointment target phone events).2 = []
         else
           (cancel_appointment target phone events).1 =
             { success := true, message := "Appointment cancelled successfully" } ∧
           (cancel_appointment target phone events).2 = [e.id]
       | none =>
         (cancel_appointment target phone events).1 =
           { success := false, message := "No matching appointment found" } ∧
         (cancel_appointment target phone events).2 = []) := by
  intro target phone events
  induction events with
  | nil => simp [cancel_appointment]
  | cons e rest ih =>
    cases he : e.start with
    | allDay =>
      have hall : isAllDay e = true := by simp [isAllDay, he]
      rw [List.find?_cons_of_pos _ (by simp [hall])]
      simp [cancel_appointment, he, hall]
    | timed dt =>
      have hall : isAllDay e = false := by simp [isAllDay, he]
      by_cases hm : matchesCancel target phone e = true
      · rw [List.find?_cons_of_pos _ (by simp [hm])]
        simp [cancel_appointment, he, hall, hm]
      · rw [List.find?_cons_of_neg _ (by simp [hall, hm])]
        simp only [cancel_appointment, he, hm]
        simpa [hm] using ih
